import Mathlib

/-!
Verification of the async_mqtt example connection adapter
(`src/example/mqtt_pub.hpp`) and the address value type
(`src/include/ip/endpoint.hpp`), via a shallow embedding.

Bytes are modelled as `Nat`, buffers as `List Nat`, the signed return
value of the socket's `Send` as `Int`.  Exceptions are modelled by an
explicit `threw` flag; observable effects (transport writes, packet-id
releases, transport closes, engine notifications, outgoing packets) are
recorded in the returned structures.
-/

/-- Outcome of one `mqtt_connection::on_send` call: the buffers passed to
`socket_.Send` in order, the packet identifiers passed to
`release_packet_id` in order, and whether an exception propagated to the
caller. -/
structure SendOutcome where
  sends : List (List Nat)
  releases : List Nat
  threw : Bool
  deriving Repr, DecidableEq

/-- The `try` body of `mqtt_connection::on_send`: flatten the packet's
buffer segments into one contiguous buffer, issue a single
`socket_.Send`, and on a negative or short return release the supplied
packet identifier (if any) and throw `am::system_error`. -/
def on_send_try_body (socketSend : List Nat → Int)
    (buffers : List (List Nat))
    (release_packet_id_if_send_error : Option Nat) : SendOutcome :=
  let flat_buffer := buffers.flatten
  let total_size : Nat := (buffers.map List.length).sum
  let sent : Int := socketSend flat_buffer
  if sent < 0 ∨ sent ≠ (total_size : Int) then
    { sends := [flat_buffer]
      releases :=
        match release_packet_id_if_send_error with
        | some pid => [pid]
        | none => []
      threw := true }
  else
    { sends := [flat_buffer], releases := [], threw := false }

/-- `mqtt_connection::on_send`: run the `try` body; the
`catch (am::system_error)` handler releases the supplied packet
identifier (if any) once more and rethrows. -/
def on_send (socketSend : List Nat → Int)
    (buffers : List (List Nat))
    (release_packet_id_if_send_error : Option Nat) : SendOutcome :=
  let body := on_send_try_body socketSend buffers release_packet_id_if_send_error
  if body.threw then
    { body with
        releases := body.releases ++
          match release_packet_id_if_send_error with
          | some pid => [pid]
          | none => [] }
  else
    body

/-- C1: every `on_send` call issues exactly one transport `Send`, whose
buffer is the concatenation of the packet's segments in order and whose
length is the sum of the segment sizes. -/
theorem on_send_single_write (socketSend : List Nat → Int)
    (buffers : List (List Nat)) (pid? : Option Nat) :
    (on_send socketSend buffers pid?).sends = [buffers.flatten] ∧
    buffers.flatten.length = (buffers.map List.length).sum := by
  constructor
  · unfold on_send on_send_try_body
    dsimp only
    split <;> split <;> rfl
  · exact List.length_flatten buffers

/-- C2: when `Send` returns a negative value or a count different from the
total size, a supplied packet identifier is released (it appears among the
`release_packet_id` calls) and the failure propagates; when `Send` returns
exactly the total size, no identifier is released and no failure is
raised. -/
theorem on_send_release_on_failure (socketSend : List Nat → Int)
    (buffers : List (List Nat)) (pid : Nat) :
    ((socketSend buffers.flatten < 0 ∨
        socketSend buffers.flatten ≠ ((buffers.map List.length).sum : Int)) →
      pid ∈ (on_send socketSend buffers (some pid)).releases ∧
      (on_send socketSend buffers (some pid)).threw = true) ∧
    (socketSend buffers.flatten = ((buffers.map List.length).sum : Int) →
      ∀ pid? : Option Nat,
        (on_send socketSend buffers pid?).releases = [] ∧
        (on_send socketSend buffers pid?).threw = false) := by
  constructor
  · intro h
    unfold on_send on_send_try_body
    dsimp only
    rw [if_pos h]
    dsimp only
    rw [if_pos rfl]
    exact ⟨List.mem_cons_self _ _, rfl⟩
  · intro h pid?
    have hno : ¬ (socketSend buffers.flatten < 0 ∨
        socketSend buffers.flatten ≠ ((buffers.map List.length).sum : Int)) := by
      rw [h]
      push_neg
      exact ⟨Int.natCast_nonneg _, rfl⟩
    unfold on_send on_send_try_body
    dsimp only
    rw [if_neg hno]
    exact ⟨rfl, rfl⟩

/-- Witness for C2: a transport returning -1 makes `on_send` release the
identifier and fail; a transport returning the exact total makes it
release nothing and succeed. -/
theorem on_send_release_on_failure_witness :
    (5 ∈ (on_send (fun _ => -1) [[1, 2], [3]] (some 5)).releases ∧
      (on_send (fun _ => -1) [[1, 2], [3]] (some 5)).threw = true) ∧
    ((on_send (fun _ => 3) [[1, 2], [3]] (some 5)).releases = [] ∧
      (on_send (fun _ => 3) [[1, 2], [3]] (some 5)).threw = false) :=
  ⟨(on_send_release_on_failure (fun _ => -1) [[1, 2], [3]] 5).1 (by decide),
   (on_send_release_on_failure (fun _ => 3) [[1, 2], [3]] 5).2 (by decide) (some 5)⟩

/-- C10: on a failed send with a supplied identifier, `release_packet_id`
is called exactly twice with that identifier — once in the short-count
branch before the throw, once again in the catch handler before the
rethrow. -/
theorem on_send_double_release (socketSend : List Nat → Int)
    (buffers : List (List Nat)) (pid : Nat)
    (h : socketSend buffers.flatten < 0 ∨
      socketSend buffers.flatten ≠ ((buffers.map List.length).sum : Int)) :
    (on_send socketSend buffers (some pid)).releases = [pid, pid] ∧
    (on_send socketSend buffers (some pid)).threw = true := by
  unfold on_send on_send_try_body
  dsimp only
  rw [if_pos h]
  dsimp only
  rw [if_pos rfl]
  exact ⟨rfl, rfl⟩

/-- Witness for C10: with a transport returning -1, the identifier 7 is
released exactly twice. -/
theorem on_send_double_release_witness :
    (on_send (fun _ => -1) [[9, 9]] (some 7)).releases = [7, 7] ∧
    (on_send (fun _ => -1) [[9, 9]] (some 7)).threw = true :=
  on_send_double_release (fun _ => -1) [[9, 9]] 7 (by decide)

/-- State observed on the adapter's error/close path: how many times
`socket_.Close()` and `notify_closed()` have been called. -/
structure AdapterState where
  closeCalls : Nat
  notifyCalls : Nat
  deriving Repr, DecidableEq

/-- The adapter right after construction: no close or notification issued. -/
def initialAdapter : AdapterState := ⟨0, 0⟩

/-- `mqtt_connection::on_error`: print the error, call `socket_.Close()`,
call `notify_closed()` — unconditionally. -/
def on_error (_ec : Int) (s : AdapterState) : AdapterState :=
  { closeCalls := s.closeCalls + 1, notifyCalls := s.notifyCalls + 1 }

/-- `mqtt_connection::on_close`: print, call `socket_.Close()`, call
`notify_closed()` — unconditionally. -/
def on_close (s : AdapterState) : AdapterState :=
  { closeCalls := s.closeCalls + 1, notifyCalls := s.notifyCalls + 1 }

/-- C4 counterexample: invoking `on_error` (or `on_close`) twice from the
initial state issues two `Close` calls on the transport — the adapter
keeps no flag and does not suppress the second close. -/
theorem double_close_counterexample :
    (on_error 0 (on_error 0 initialAdapter)).closeCalls = 2 ∧
    (on_close (on_close initialAdapter)).closeCalls = 2 ∧
    (on_close (on_error 0 initialAdapter)).closeCalls = 2 := by
  exact ⟨rfl, rfl, rfl⟩

/-- C4 amended: each invocation of `on_error` or `on_close` issues exactly
one more transport `Close` call; the adapter tracks nothing, so n
invocations close the transport n times. -/
theorem close_call_per_invocation (ec : Int) (s : AdapterState) :
    (on_error ec s).closeCalls = s.closeCalls + 1 ∧
    (on_close s).closeCalls = s.closeCalls + 1 := by
  exact ⟨rfl, rfl⟩

/-- Quality-of-service level of a publish packet. -/
inductive Qos
  | at_most_once
  | at_least_once
  | exactly_once
  deriving Repr, DecidableEq

/-- The packet kinds `mqtt_connection::on_receive` distinguishes, plus the
outgoing publish/disconnect packets it builds.  `connack` carries whether
`make_error_code(p.code())` is falsy (success). -/
inductive PacketV
  | connack (success : Bool)
  | publish (pid? : Option Nat) (topic payload : String) (q : Qos)
  | puback (pid : Nat)
  | pubrec (pid : Nat)
  | pubrel (pid : Nat)
  | pubcomp (pid : Nat)
  | disconnect
  | other
  deriving Repr, DecidableEq

/-- Modelled from the spec: the protocol engine's packet-identifier pool,
which lives in `async_mqtt/protocol/connection.hpp` and is not under
`src/`.  Per the spec, a packet identifier is "an engine-managed token
uniquely tagging an in-flight acknowledged packet; drawn from a finite
pool, released on completion or failure".  The pool is modelled as the
list of still-available identifiers. -/
structure EngineState where
  pool : List Nat
  deriving Repr, DecidableEq

/-- Modelled from the spec: `acquire_unique_packet_id` draws the next
available identifier from the finite pool; "acquisition can fail (pool
exhaustion)", in which case it "yields an empty result". -/
def acquire_unique_packet_id : EngineState → Option Nat × EngineState
  | ⟨[]⟩ => (none, ⟨[]⟩)
  | ⟨pid :: rest⟩ => (some pid, ⟨rest⟩)

/-- Effects observable from one `mqtt_connection::on_receive` call: the
packets passed to `send` in order, and whether `socket_.Close()` and
`notify_closed()` were called. -/
structure ReceiveEffects where
  sent : List PacketV
  closed : Bool
  notified : Bool
  deriving Repr, DecidableEq

/-- `mqtt_connection::on_receive`: visit the packet by kind.  A failed
connack closes the transport and notifies the engine; a successful
connack sends three publishes (QoS 0 without an identifier, then QoS 1
and QoS 2 each after `*acquire_unique_packet_id()`); a pubcomp sends a
disconnect packet; publish/puback/pubrec/pubrel and others only log.
The result is `none` exactly when the code dereferences an empty
`acquire_unique_packet_id()` result (undefined behavior in the C++). -/
def on_receive (p : PacketV) (e : EngineState) :
    Option (ReceiveEffects × EngineState) :=
  match p with
  | .connack success =>
    if success then
      let (pid1?, e1) := acquire_unique_packet_id e
      match pid1? with
      | none => none
      | some pid1 =>
        let (pid2?, e2) := acquire_unique_packet_id e1
        match pid2? with
        | none => none
        | some pid2 =>
          some ({ sent :=
                    [.publish none "topic1" "payload1" .at_most_once,
                     .publish (some pid1) "topic2" "payload2" .at_least_once,
                     .publish (some pid2) "topic3" "payload3" .exactly_once]
                  closed := false, notified := false }, e2)
    else
      some ({ sent := [], closed := true, notified := true }, e)
  | .pubcomp _ => some ({ sent := [.disconnect], closed := false, notified := false }, e)
  | _ => some ({ sent := [], closed := false, notified := false }, e)

/-- C3: a successful connect-acknowledgement makes `on_receive` issue
exactly three publishes in order — QoS 0 with no identifier, QoS 1 with
the first freshly acquired identifier, QoS 2 with the second — and the
two acquired identifiers are distinct. -/
theorem connack_success_three_publishes (pid1 pid2 : Nat) (rest : List Nat)
    (hnd : (pid1 :: pid2 :: rest).Nodup) :
    on_receive (.connack true) ⟨pid1 :: pid2 :: rest⟩ =
      some ({ sent :=
                [.publish none "topic1" "payload1" .at_most_once,
                 .publish (some pid1) "topic2" "payload2" .at_least_once,
                 .publish (some pid2) "topic3" "payload3" .exactly_once]
              closed := false, notified := false }, ⟨rest⟩) ∧
    pid1 ≠ pid2 := by
  refine ⟨rfl, fun hEq => ?_⟩
  exact (List.nodup_cons.mp hnd).1 (hEq ▸ List.mem_cons_self pid2 rest)

/-- Witness for C3: with available identifiers 1, 2, 3 the three publishes
are issued and the acquired identifiers 1 and 2 differ. -/
theorem connack_success_three_publishes_witness :
    on_receive (.connack true) ⟨[1, 2, 3]⟩ =
      some ({ sent :=
                [.publish none "topic1" "payload1" .at_most_once,
                 .publish (some 1) "topic2" "payload2" .at_least_once,
                 .publish (some 2) "topic3" "payload3" .exactly_once]
              closed := false, notified := false }, ⟨[3]⟩) ∧
    (1 : Nat) ≠ 2 :=
  connack_success_three_publishes 1 2 [3] (by decide)

/-- C5: a failed connect-acknowledgement makes `on_receive` close the
transport and notify the engine of closure, with no publish attempted. -/
theorem connack_failure_closes (e : EngineState) :
    on_receive (.connack false) e =
      some ({ sent := [], closed := true, notified := true }, e) := rfl

/-- C6: receiving a publish-complete packet makes `on_receive` send
exactly one disconnect packet and nothing else. -/
theorem pubcomp_sends_single_disconnect (pid : Nat) (e : EngineState) :
    on_receive (.pubcomp pid) e =
      some ({ sent := [.disconnect], closed := false, notified := false }, e) := rfl

/-- C9 counterexample: with an exhausted identifier pool, the
success-connack branch does not handle the empty acquisition result — it
reaches the unguarded dereference of the empty optional (modelled as
`none`, undefined behavior in the C++). -/
theorem connack_success_exhausted_pool_counterexample :
    on_receive (.connack true) ⟨[]⟩ = none ∧
    on_receive (.connack true) ⟨[6]⟩ = none := ⟨rfl, rfl⟩

/-- C9 amended: the success-connack branch dereferences both acquisition
results unconditionally; it is well-defined exactly when the pool holds
at least two identifiers, and reaches the empty-result dereference
otherwise. -/
theorem connack_success_deref_precondition (e : EngineState) :
    (2 ≤ e.pool.length → (on_receive (.connack true) e).isSome = true) ∧
    (e.pool.length < 2 → on_receive (.connack true) e = none) := by
  match e with
  | ⟨[]⟩ => exact ⟨fun h => absurd h (by simp), fun _ => rfl⟩
  | ⟨[p]⟩ => exact ⟨fun h => absurd h (by simp), fun _ => rfl⟩
  | ⟨p :: q :: rest⟩ =>
    exact ⟨fun _ => rfl, fun h => absurd h (by simp)⟩

/-- Witness for C9 amended: a two-element pool satisfies the precondition
and the branch succeeds; a one-element pool fails it and the dereference
is reached. -/
theorem connack_success_deref_precondition_witness :
    (on_receive (.connack true) ⟨[4, 9]⟩).isSome = true ∧
    on_receive (.connack true) ⟨[4]⟩ = none :=
  ⟨(connack_success_deref_precondition ⟨[4, 9]⟩).1 (by decide),
   (connack_success_deref_precondition ⟨[4]⟩).2 (by decide)⟩

/-- Capacity of the address value's internal buffer:
`sizeof(::sockaddr_storage)`, 128 bytes on the targeted platform. -/
def sockaddr_storage_size : Nat := 128

/-- `ip::endpoint`: a fixed-capacity byte buffer `d_data` (the
`sockaddr_storage`) and a length field `d_size`. -/
structure endpoint where
  d_data : List Nat
  d_size : Nat
  deriving Repr, DecidableEq

/-- The default `ip::endpoint` constructor: zero-filled storage, size set
to the full capacity. -/
def endpoint_default : endpoint :=
  { d_data := List.replicate sockaddr_storage_size 0
    d_size := sockaddr_storage_size }

/-- The `ip::endpoint(const void*, socklen_t)` constructor: `d_size` is
set to the passed-in size, and `memcpy` copies
`min(size, sizeof(sockaddr_storage))` bytes from the source over the
zero-initialized storage. -/
def endpoint_mk (data : List Nat) (size : Nat) : endpoint :=
  let n := min size sockaddr_storage_size
  { d_data := data.take n ++ (List.replicate sockaddr_storage_size 0).drop n
    d_size := size }

/-- Helper: when the source covers the copied prefix, the constructed
buffer has exactly the fixed capacity. -/
theorem endpoint_mk_length_eq (B : List Nat) (L : Nat)
    (h : min L sockaddr_storage_size ≤ B.length) :
    (endpoint_mk B L).d_data.length = sockaddr_storage_size := by
  have htake : (B.take (min L sockaddr_storage_size)).length =
      min L sockaddr_storage_size := by
    rw [List.length_take]
    exact min_eq_left h
  show (B.take (min L sockaddr_storage_size) ++
    (List.replicate sockaddr_storage_size 0).drop
      (min L sockaddr_storage_size)).length = sockaddr_storage_size
  rw [List.length_append, htake, List.length_drop, List.length_replicate]
  omega

/-- C7: constructing an endpoint from `(B, L)` copies exactly
`min(L, capacity)` bytes of `B`, keeps the buffer at its fixed capacity
(no overrun), and reports the original `L` as the size even when `L`
exceeds the capacity. -/
theorem endpoint_mk_truncating_copy (B : List Nat) (L : Nat)
    (h : L ≤ B.length) :
    (endpoint_mk B L).d_data.length = sockaddr_storage_size ∧
    (endpoint_mk B L).d_data.take (min L sockaddr_storage_size) =
      B.take (min L sockaddr_storage_size) ∧
    (endpoint_mk B L).d_size = L := by
  have hn : min L sockaddr_storage_size ≤ B.length :=
    le_trans (min_le_left _ _) h
  have htake : (B.take (min L sockaddr_storage_size)).length =
      min L sockaddr_storage_size := by
    rw [List.length_take]
    exact min_eq_left hn
  refine ⟨endpoint_mk_length_eq B L hn, ?_, rfl⟩
  show (B.take (min L sockaddr_storage_size) ++
    (List.replicate sockaddr_storage_size 0).drop
      (min L sockaddr_storage_size)).take (min L sockaddr_storage_size) =
    B.take (min L sockaddr_storage_size)
  rw [List.take_append_of_le_length (le_of_eq htake.symm),
    List.take_take, min_self]

/-- Witness for C7: a 200-byte source with passed-in length 200 yields a
128-byte buffer holding the first 128 source bytes, while the reported
size stays 200. -/
theorem endpoint_mk_truncating_copy_witness :
    (endpoint_mk (List.replicate 200 7) 200).d_data.length =
      sockaddr_storage_size ∧
    (endpoint_mk (List.replicate 200 7) 200).d_data.take
        (min 200 sockaddr_storage_size) =
      (List.replicate 200 7).take (min 200 sockaddr_storage_size) ∧
    (endpoint_mk (List.replicate 200 7) 200).d_size = 200 :=
  endpoint_mk_truncating_copy (List.replicate 200 7) 200
    (by rw [List.length_replicate])

/-- C8 counterexample: constructing from a 200-byte source with length 200
stores size 200 in a 128-byte buffer — the stored length exceeds the
buffer capacity. -/
theorem endpoint_size_exceeds_capacity_counterexample :
    (endpoint_mk (List.replicate 200 7) 200).d_size = 200 ∧
    (endpoint_mk (List.replicate 200 7) 200).d_data.length = 128 ∧
    ¬ ((endpoint_mk (List.replicate 200 7) 200).d_size ≤
        (endpoint_mk (List.replicate 200 7) 200).d_data.length) := by
  have hlen : (endpoint_mk (List.replicate 200 7) 200).d_data.length = 128 :=
    endpoint_mk_length_eq (List.replicate 200 7) 200
      (by rw [List.length_replicate]; exact min_le_left 200 _)
  refine ⟨rfl, hlen, ?_⟩
  rw [hlen]
  decide

/-- C8 amended: the stored length is within the buffer capacity for the
default constructor, and for byte-constructions whose passed-in length is
at most the capacity and covered by the source; a passed-in length above
the capacity is stored unchanged and violates the bound. -/
theorem endpoint_size_within_capacity (B : List Nat) (L : Nat)
    (hcap : L ≤ sockaddr_storage_size) (hsrc : L ≤ B.length) :
    endpoint_default.d_size ≤ endpoint_default.d_data.length ∧
    (endpoint_mk B L).d_size ≤ (endpoint_mk B L).d_data.length := by
  constructor
  · simp [endpoint_default]
  · rw [endpoint_mk_length_eq B L (le_trans (min_le_left _ _) hsrc)]
    exact hcap

/-- Witness for C8 amended: a 10-byte construction keeps the stored length
within the 128-byte capacity. -/
theorem endpoint_size_within_capacity_witness :
    endpoint_default.d_size ≤ endpoint_default.d_data.length ∧
    (endpoint_mk (List.replicate 10 3) 10).d_size ≤
      (endpoint_mk (List.replicate 10 3) 10).d_data.length :=
  endpoint_size_within_capacity (List.replicate 10 3) 10 (by decide) (by simp)
